import Mathlib

/-!
Verification of the carbon-savings calculation engine of the green_app
repository.  The definitions below are shallow embeddings of the Python
functions in `green_moment_backend_api/scripts/*.py`,
`green_moment_backend_api/app/api/v1/endpoints/progress.py` and
`green_moment_integrated/live_pipeline_integrated.py`.  Machine floats are
modelled by `ℚ`, timestamps by minutes-since-epoch (`ℕ`), calendar dates by a
`(year, month, day)` triple, and fallible Python code (raising exceptions) by
`Option`.
-/

namespace GreenApp

/-- Calendar date, mirroring Python `datetime.date` at the granularity the
scripts use (year, month, day). -/
structure CalDate where
  y : ℕ
  m : ℕ
  d : ℕ
deriving DecidableEq, Repr

/-- Boolean strict order on dates (lexicographic year, month, day), mirroring
Python date comparison. -/
def dateLtB (a b : CalDate) : Bool :=
  decide (a.y < b.y) ||
    (decide (a.y = b.y) &&
      (decide (a.m < b.m) || (decide (a.m = b.m) && decide (a.d < b.d))))

/-- Boolean non-strict order on dates. -/
def dateLeB (a b : CalDate) : Bool :=
  dateLtB a b || decide (a = b)

/-- A row of the `daily_carbon_progress` table:
`(user_id, date, daily_carbon_saved, cumulative_carbon_saved)`. -/
structure ProgressRow where
  userId : ℕ
  date : CalDate
  daily : ℚ
  cum : ℚ
deriving DecidableEq, Repr

/-! ### ChoreSavingsCalculator

`league_promotion_scheduler.py` lines 77-96: per chore the scheduler adds
`max(0, (worst_case_intensity - actual_carbon_intensity) * appliance_kw *
duration_hours)` to the monthly total.
`monthly_carbon_calculator_template.py` lines 152-158 compute the same
quantity as `max(0, worst_emissions - actual_emissions)` with
`actual_emissions = duration_hours * actual_intensity * appliance_kw` and
`worst_emissions = duration_hours * worst_intensity * appliance_kw`. -/

/-- Per-chore savings contribution of
`league_promotion_scheduler.calculate_monthly_carbon_savings` (lines 94-95):
`max(0, (worst_case - actual) * kW * hours)`. -/
def choreSavedScheduler (worst actual powerKw durationHours : ℚ) : ℚ :=
  max 0 ((worst - actual) * powerKw * durationHours)

/-- Per-chore savings of
`MonthlyCarbonCalculator.calculate_chore_carbon_saved` (lines 152-158):
`max(0, worst_emissions - actual_emissions)`. -/
def choreSavedTemplate (worst actual powerKw durationHours : ℚ) : ℚ :=
  max 0 (durationHours * worst * powerKw - durationHours * actual * powerKw)

/-! ### Appliance power lookup

`APPLIANCE_POWER` (module `app.constants.appliances`, not part of the sources
under review) is a fixed mapping from appliance-type name to power draw in kW;
we model it as an association list parameter.  The lookup sites in the
reviewed scripts differ in their fallback default:
`league_promotion_scheduler.py` line 79 and `debug_carbon_calculation.py`
line 52 use `APPLIANCE_POWER.get(chore.appliance_type, 1.0)`, while
`monthly_carbon_calculator_template.py` line 132 uses
`APPLIANCE_POWER.get(chore.appliance_type, 0)`. -/

/-- Appliance power lookup as performed by `league_promotion_scheduler.py`
line 79 (and `debug_carbon_calculation.py` line 52): default 1.0 kW. -/
def appliancePowerScheduler (table : List (String × ℚ)) (appliance : String) : ℚ :=
  (table.lookup appliance).getD 1

/-- Appliance power lookup as performed by
`monthly_carbon_calculator_template.py` line 132: default 0 kW. -/
def appliancePowerTemplate (table : List (String × ℚ)) (appliance : String) : ℚ :=
  (table.lookup appliance).getD 0

/-! ### IntervalIntensityEstimator

`league_promotion_scheduler._calculate_period_carbon_intensity` (lines
119-144).  The carbon-intensity series is the Python dict
`carbon_data : datetime -> float`, modelled as an association list in
insertion order with unique keys; timestamps are minutes (the code zeroes
seconds and microseconds).  `min(carbon_data.keys(), key=...)` raises
`ValueError` on an empty dict, modelled by `none`; like Python `min`, ties in
the distance resolve to the earliest-inserted key, which `List.argmin` also
does. -/

/-- The loop head `start_time.replace(minute=(start_time.minute // 10) * 10,
second=0, microsecond=0)` on a minutes-since-epoch timestamp: the minute of
the hour is floored to a multiple of 10. -/
def roundDown10 (t : ℕ) : ℕ :=
  t - t % 60 + t % 60 / 10 * 10

/-- Timestamps visited by `while current_time <= end_time: ...
current_time += timedelta(minutes=10)`, in closed form; the lemma
`stepsUpTo_eq` below recovers the loop equation. -/
def stepsUpTo (t e : ℕ) : List ℕ :=
  (List.range (if t ≤ e then (e - t) / 10 + 1 else 0)).map (fun k => t + 10 * k)

/-- Body of the while-loop of `_calculate_period_carbon_intensity`, collecting
`relevant_intensities` over the stepped timestamps; `none` models the
`ValueError` raised by `min` on an empty dict. -/
def collectIntensities (data : List (ℕ × ℚ)) : List ℕ → Option (List ℚ)
  | [] => some []
  | t :: ts =>
    match data.lookup t with
    | some v => (collectIntensities data ts).map (fun l => v :: l)
    | none =>
      match data.argmin (fun p => Nat.dist p.1 t) with
      | none => none
      | some c =>
        if Nat.dist c.1 t < 60 then (collectIntensities data ts).map (fun l => c.2 :: l)
        else collectIntensities data ts

/-- Embedding of `_calculate_period_carbon_intensity` (lines 119-144): the
mean of the resolved intensities, or the fallback `0.500` when none resolve;
`none` models the exception on an empty series. -/
def calculate_period_carbon_intensity (data : List (ℕ × ℚ)) (startT endT : ℕ) : Option ℚ :=
  (collectIntensities data (stepsUpTo (roundDown10 startT) endT)).map
    (fun l => if l = [] then 1/2 else l.sum / l.length)

/-- Resolution of one stepped timestamp following the specification text:
the series value at that exact timestamp if present, otherwise the nearest
sample within a 60-minute tolerance, otherwise missing. -/
def resolveSample (data : List (ℕ × ℚ)) (t : ℕ) : Option ℚ :=
  match data.lookup t with
  | some v => some v
  | none =>
    match data.argmin (fun p => Nat.dist p.1 t) with
    | some c => if Nat.dist c.1 t < 60 then some c.2 else none
    | none => none

/-- Interval estimate following the specification text for comparison with
the code: arithmetic mean of the resolved values of the stepped sequence,
with the `0.500` fallback when zero values resolve. -/
def specIntervalEstimate (data : List (ℕ × ℚ)) (startT endT : ℕ) : ℚ :=
  let resolved := (stepsUpTo (roundDown10 startT) endT).filterMap (resolveSample data)
  if resolved = [] then 1/2 else resolved.sum / resolved.length

/-! ### WorstWindowSearch

`league_promotion_scheduler._find_worst_continuous_period` (lines 146-178) and
`MonthlyCarbonCalculator.find_worst_period`
(`monthly_carbon_calculator_template.py` lines 160-174).  A timestamp `t` (in
minutes) lies on calendar day `t / 1440`. -/

/-- Dictionary access `day_data[ts]` (total on the keys of `day_data`). -/
def lookupIntensity (data : List (ℕ × ℚ)) (t : ℕ) : ℚ :=
  (data.lookup t).getD 0

/-- Embedding of `_find_worst_continuous_period`: filter the series to the
given day, sort the timestamps, slide a window of `(duration + 9) / 10`
samples, take the maximum window mean, with the `0.600` fallback when the day
is empty or the maximum is not positive. -/
def find_worst_continuous_period (data : List (ℕ × ℚ)) (day : ℕ)
    (durationMinutes : ℕ) : ℚ :=
  let dayData := data.filter (fun p => p.1 / 1440 == day)
  if dayData = [] then 3/5
  else
    let timestamps := (dayData.map (fun p => p.1)).insertionSort (· ≤ ·)
    let slotsNeeded := (durationMinutes + 9) / 10
    let worst := (List.range (timestamps.length + 1 - slotsNeeded)).foldl
      (fun w i =>
        let window := (List.range slotsNeeded).filterMap
          (fun j => (timestamps[i + j]?).map (lookupIntensity dayData))
        if window = [] then w else max w (window.sum / window.length)) 0
    if 0 < worst then worst else 3/5

/-- The ordered intensity samples of a day as seen by
`_find_worst_continuous_period` (the day's values in timestamp order). -/
def daySamples (data : List (ℕ × ℚ)) (day : ℕ) : List ℚ :=
  let dayData := data.filter (fun p => p.1 / 1440 == day)
  ((dayData.map (fun p => p.1)).insertionSort (· ≤ ·)).map (lookupIntensity dayData)

/-- Embedding of `find_worst_period` from
`monthly_carbon_calculator_template.py` (lines 160-174): window size is
`duration_minutes // 10` (floor), maximum of window means starting from 0.
An out-of-range window slice is empty and leaves the accumulator unchanged,
as in the source (`max` against a NaN mean keeps the accumulator; here the
empty mean is 0 and the accumulator is never negative). -/
def find_worst_period (dayData : List ℚ) (durationMinutes : ℕ) : ℚ :=
  if dayData = [] then 0
  else
    let periodsNeeded := durationMinutes / 10
    (List.range (dayData.length + 1 - periodsNeeded)).foldl
      (fun w i =>
        let window := (dayData.drop i).take periodsNeeded
        max w (window.sum / window.length)) 0

/-- Mean intensity of the window of `k` consecutive samples starting at
position `i`. -/
def windowMean (samples : List ℚ) (i k : ℕ) : ℚ :=
  let w := (samples.drop i).take k
  w.sum / w.length

/-- Maximum mean over all windows of `ceil(duration / 10)` consecutive
samples, written from the claim's words, for comparison with the code. -/
def specWorstWindow (samples : List ℚ) (durationMinutes : ℕ) : ℚ :=
  let k := (durationMinutes + 9) / 10
  (List.range (samples.length + 1 - k)).foldl
    (fun w i =>
      let window := (samples.drop i).take k
      max w (window.sum / window.length)) 0

/-! ### Cumulative repair pass

`fix_cumulative_carbon.fix_cumulative_totals` (lines 46-63), per user: walk
the user's `DailyCarbonProgress` rows in date order, resetting the running
cumulative whenever `current_month != entry.date.month` — note the comparison
uses only the month number, never the year — and rewriting an entry's stored
cumulative when it differs from the recomputed one by more than `0.001`. -/

/-- One `DailyCarbonProgress` entry as the fix script sees it. -/
structure FixEntry where
  date : CalDate
  daily : ℚ
  cum : ℚ
deriving DecidableEq, Repr

/-- The per-entry loop of `fix_cumulative_totals`, carrying `current_month`
(a bare month number, initially `None`) and the running `cumulative`. -/
def fixCumulativePass (curMonth : Option ℕ) (cumulative : ℚ) :
    List FixEntry → List FixEntry
  | [] => []
  | e :: rest =>
    let newCum := if curMonth = some e.date.m then cumulative + e.daily else e.daily
    let newEntry := if |e.cum - newCum| > 1/1000 then { e with cum := newCum } else e
    newEntry :: fixCumulativePass (some e.date.m) newCum rest

/-- Embedding of `fix_cumulative_totals` for one user's date-ordered entries
(lines 46-63). -/
def fix_cumulative_totals (entries : List FixEntry) : List FixEntry :=
  fixCumulativePass none 0 entries

/-! ### Daily-carbon endpoint

`progress.get_daily_carbon` (`app/api/v1/endpoints/progress.py` lines
90-123): look up the user's `DailyCarbonProgress` row for the date; if none
exists, respond with `carbon_saved = 0.0` and `cumulative_carbon_saved =
0.0`. -/

/-- Embedding of the `/daily-carbon` endpoint response
`(carbon_saved, cumulative_carbon_saved)`. -/
def get_daily_carbon (rows : List ProgressRow) (uid : ℕ) (d : CalDate) : ℚ × ℚ :=
  match rows.find? (fun r => r.userId == uid && r.date == d) with
  | some r => (r.daily, r.cum)
  | none => (0, 0)

/-! ### Historical migration and cache recalculation

`migrate_historical_carbon.HistoricalCarbonMigration.migrate_user_carbon`
(lines 60-164, the daily-row and user-total effects; the monthly-summary and
league side effects of `_create_monthly_summaries` touch neither
`daily_carbon_progress` rows nor the two carbon fields treated here) and
`recalculate_current_month.recalculate_current_month` (lines 36-48).  The
chore-level calculator
`DailyCarbonCalculator._calculate_chore_carbon_saved` lives in
`app/services/carbon_calculator.py`, which is not among the sources under
review; it is abstracted as an arbitrary function parameter `calc`. -/

/-- A logged appliance-usage event as the migration sees it: its owner, its
local calendar date, and an opaque payload consumed by the abstract
chore-level calculator. -/
structure Chore where
  userId : ℕ
  date : CalDate
  data : ℚ
deriving DecidableEq, Repr

/-- The user-record fields the migration and recalculation scripts touch. -/
structure UserRec where
  id : ℕ
  total : ℚ
  currentMonth : ℚ
deriving DecidableEq, Repr

/-- Persistent state seen by the migration scripts. -/
structure MigState where
  rows : List ProgressRow
  chores : List Chore
  users : List UserRec
deriving DecidableEq, Repr

/-- Non-strict date order as a decidable proposition (for sorting). -/
def dateLe (a b : CalDate) : Prop :=
  dateLeB a b = true

instance (a b : CalDate) : Decidable (dateLe a b) :=
  inferInstanceAs (Decidable (dateLeB a b = true))

/-- The migration's `sorted(chores_by_date.keys())`: the distinct chore dates
in ascending order. -/
def sortedChoreDates (chores : List Chore) : List CalDate :=
  ((chores.map (fun c => c.date)).dedup).insertionSort dateLe

/-- One `DailyCarbonProgress` entry under construction (for one user). -/
structure PEntry where
  date : CalDate
  daily : ℚ
  cum : ℚ
deriving DecidableEq, Repr

/-- The per-date loop of `migrate_user_carbon` (lines 95-149): for each date
in ascending order, the daily total is the sum of the calculator over that
day's chores; the cumulative total is the daily total on the 1st of a month
or when no earlier entry of the same year and month exists, and otherwise the
most recent same-month entry's cumulative plus the daily total.  The entries
built so far are in ascending date order, so the query
`ORDER BY date DESC LIMIT 1` over earlier same-month dates returns the last
matching element of the accumulator. -/
def buildEntries (calcFn : Chore → ℚ) (chores : List Chore) :
    List CalDate → List PEntry → List PEntry
  | [], acc => acc
  | d :: ds, acc =>
    let daily := ((chores.filter (fun c => c.date == d)).map calcFn).sum
    let prev := (acc.filter
      (fun e => e.date.y == d.y && e.date.m == d.m && dateLtB e.date d)).getLast?
    let cum := if d.d = 1 then daily
      else
        match prev with
        | some p => p.cum + daily
        | none => daily
    buildEntries calcFn chores ds (acc ++ [⟨d, daily, cum⟩])

/-- The daily entries the migration derives from a user's chores. -/
def migratedEntries (calcFn : Chore → ℚ) (chores : List Chore) : List PEntry :=
  buildEntries calcFn chores (sortedChoreDates chores) []

/-- The `daily_carbon_progress` rows the migration writes for user `uid`
given the full chore table: a function of the chores alone. -/
def userRowsFromChores (calcFn : Chore → ℚ) (uid : ℕ) (chores : List Chore) :
    List ProgressRow :=
  (migratedEntries calcFn (chores.filter (fun c => c.userId == uid))).map
    (fun e => ⟨uid, e.date, e.daily, e.cum⟩)

/-- Embedding of `migrate_user_carbon` (lines 60-164): if the user has no
chores the function returns early; otherwise it deletes the user's existing
`daily_carbon_progress` rows, inserts freshly computed ones, sets the user's
lifetime total to the sum of the daily totals, and sets the user's
current-month cache to the last cumulative value of the current month when
that month has data (`month_data`, whose per-month value is overwritten by
each later date of the month). -/
def migrate_user_carbon (calcFn : Chore → ℚ) (today : CalDate) (uid : ℕ)
    (st : MigState) : MigState :=
  let userChores := st.chores.filter (fun c => c.userId == uid)
  if userChores = [] then st
  else
    let entries := migratedEntries calcFn userChores
    let newRows := entries.map (fun e => ProgressRow.mk uid e.date e.daily e.cum)
    let totalSaved := (entries.map (fun e => e.daily)).sum
    let monthLast := (entries.filter
      (fun e => e.date.y == today.y && e.date.m == today.m)).getLast?
    { rows := st.rows.filter (fun r => !(r.userId == uid)) ++ newRows
      chores := st.chores
      users := st.users.map (fun u =>
        if u.id == uid then
          { u with
              total := totalSaved
              currentMonth :=
                match monthLast with
                | some e => e.cum
                | none => u.currentMonth }
        else u) }

/-- Embedding of `recalculate_current_month` (lines 36-48): the user's
current-month cache becomes the sum of `daily_carbon_saved` over the user's
rows dated on or after the first of the current month (the query has no upper
date bound). -/
def recalculate_current_month (now : CalDate) (uid : ℕ) (st : MigState) : MigState :=
  let monthStart : CalDate := ⟨now.y, now.m, 1⟩
  let monthTotal := ((st.rows.filter
    (fun r => r.userId == uid && !(dateLtB r.date monthStart))).map (fun r => r.daily)).sum
  { st with
      users := st.users.map (fun u =>
        if u.id == uid then { u with currentMonth := monthTotal } else u) }

/-! ### Monthly summary finalization

`carbon_based_promotion.CarbonBasedPromotion.check_and_promote_user` (lines
41-147) and, for contrast, the summary write of
`league_promotion_scheduler.check_and_promote_user` (line 248), whose total
comes from `calculate_monthly_carbon_savings` over the chores. -/

/-- A `MonthlySummary` row. -/
structure SummaryRow where
  userId : ℕ
  month : ℕ
  year : ℕ
  total : ℚ
  leagueStart : String
  leagueEnd : String
  upgraded : Bool
deriving DecidableEq, Repr

/-- The user-record fields the promotion script touches. -/
structure PromoUser where
  id : ℕ
  league : String
  currentMonth : ℚ
deriving DecidableEq, Repr

/-- Persistent state seen by the carbon-based promotion script. -/
structure PromoState where
  users : List PromoUser
  rows : List ProgressRow
  summaries : List SummaryRow
deriving DecidableEq, Repr

/-- Gregorian leap-year rule. -/
def isLeapYear (y : ℕ) : Bool :=
  (y % 4 == 0 && y % 100 != 0) || y % 400 == 0

/-- Number of days of a month (Gregorian calendar). -/
def daysInMonth (y m : ℕ) : ℕ :=
  if m == 1 || m == 3 || m == 5 || m == 7 || m == 8 || m == 10 || m == 12 then 31
  else if m == 4 || m == 6 || m == 9 || m == 11 then 30
  else if isLeapYear y then 29 else 28

/-- `date(today.year, today.month, 1) - relativedelta(days=1)`: the last day
of the month preceding `today`. -/
def prevMonthEnd (today : CalDate) : CalDate :=
  if today.m = 1 then ⟨today.y - 1, 12, 31⟩
  else ⟨today.y, today.m - 1, daysInMonth today.y (today.m - 1)⟩

/-- The promotion thresholds table of `carbon_based_promotion.py` (grams);
`"diamond"` maps to `None`. -/
def promotionThreshold : String → Option ℚ
  | "bronze" => some 30
  | "silver" => some 300
  | "gold" => some 500
  | "emerald" => some 1000
  | _ => none

/-- The league progression table of `carbon_based_promotion.py`. -/
def leagueProgression : String → String
  | "bronze" => "silver"
  | "silver" => "gold"
  | "gold" => "emerald"
  | "emerald" => "diamond"
  | _ => "diamond"

/-- Update the first summary row matching `p` with `f`, or append `mk` when
none matches (the create-or-update of lines 100-128). -/
def upsertSummary (p : SummaryRow → Bool) (f : SummaryRow → SummaryRow)
    (mk : SummaryRow) : List SummaryRow → List SummaryRow
  | [] => [mk]
  | s :: rest => if p s then f s :: rest else s :: upsertSummary p f mk rest

/-- Sum of `daily_carbon_saved` over one user's rows of one calendar month. -/
def monthDailySum (rows : List ProgressRow) (uid y m : ℕ) : ℚ :=
  ((rows.filter (fun r => r.userId == uid && r.date.y == y && r.date.m == m)).map
    (fun r => r.daily)).sum

/-- Embedding of `carbon_based_promotion.check_and_promote_user` (lines
41-147): last month's carbon is the sum of the user's daily rows between the
first and last day of the previous month; the user is promoted when it
reaches the threshold of the current league; the monthly summary for the
previous month is created or updated with exactly that total; the
current-month counter is reset when the month changed. -/
def check_and_promote_user (today : CalDate) (uid : ℕ) (st : PromoState) : PromoState :=
  match st.users.find? (fun u => u.id == uid) with
  | none => st
  | some user =>
    let lmE := prevMonthEnd today
    let lmS : CalDate := ⟨lmE.y, lmE.m, 1⟩
    let lastMonthCarbon := ((st.rows.filter (fun r =>
      r.userId == uid && !(dateLtB r.date lmS) && dateLeB r.date lmE)).map
        (fun r => r.daily)).sum
    let oldLeague := user.league
    let promoted := !(oldLeague == "diamond") &&
      (match promotionThreshold oldLeague with
       | some th => decide (th ≤ lastMonthCarbon)
       | none => false)
    let newLeague := if promoted then leagueProgression oldLeague else oldLeague
    { users := st.users.map (fun u =>
        if u.id == uid then
          { u with
              league := newLeague
              currentMonth := if !(today.m == lmE.m) then 0 else u.currentMonth }
        else u)
      rows := st.rows
      summaries := upsertSummary
        (fun s => s.userId == uid && s.month == lmE.m && s.year == lmE.y)
        (fun s => { s with total := lastMonthCarbon, leagueEnd := newLeague,
                           upgraded := promoted })
        ⟨uid, lmE.m, lmE.y, lastMonthCarbon, oldLeague, newLeague, promoted⟩
        st.summaries }

/-- A chore as `league_promotion_scheduler.calculate_monthly_carbon_savings`
sees it: `month` and `year` stand for `extract('month'/'year', start_time)`;
timestamps are minutes since the epoch and the start day is `startTs / 1440`. -/
structure SchedChore where
  userId : ℕ
  month : ℕ
  year : ℕ
  startTs : ℕ
  endTs : ℕ
  durationMinutes : ℕ
  appliance : String
deriving DecidableEq, Repr

/-- Savings contribution of one chore inside
`calculate_monthly_carbon_savings` (lines 77-95). -/
def schedChoreSaved (table : List (String × ℚ)) (data : List (ℕ × ℚ))
    (c : SchedChore) : Option ℚ :=
  (calculate_period_carbon_intensity data c.startTs c.endTs).map (fun actual =>
    let applianceKw := appliancePowerScheduler table c.appliance
    let durationHours := (c.durationMinutes : ℚ) / 60
    let worst := find_worst_continuous_period data (c.startTs / 1440) c.durationMinutes
    choreSavedScheduler worst actual applianceKw durationHours)

/-- The `total_carbon_saved` value computed by
`calculate_monthly_carbon_savings` (lines 60-117) and written into the
monthly summary by `league_promotion_scheduler.check_and_promote_user`
(line 248). -/
def calculate_monthly_carbon_savings (table : List (String × ℚ))
    (data : List (ℕ × ℚ)) (chores : List SchedChore) (uid month year : ℕ) :
    Option ℚ :=
  ((chores.filter (fun c => c.userId == uid && c.month == month && c.year == year)).mapM
    (schedChoreSaved table data)).map (fun l => l.sum)

/-! ### Regional CSV ingestion

`live_pipeline_integrated.update_regional_data` (lines 318-382), per regional
CSV file: build a row of per-fuel generation values (in `ALL_FUEL_TYPES`
order) with `Total_Generation` their sum and null weather columns; if a row
with the same timestamp already exists, overwrite only the fuel columns and
`Total_Generation` of the first such row, otherwise append the new row. -/

/-- One row of a regional CSV file. -/
structure CsvRow where
  timestamp : ℕ
  fuels : List ℚ
  totalGeneration : ℚ
  airTemperature : Option ℚ
  windSpeed : Option ℚ
  sunshineDuration : Option ℚ
deriving DecidableEq, Repr

/-- Embedding of the per-region write of `update_regional_data` (lines
354-382): update the fuel columns and total of the first row carrying the
timestamp, or append a fresh row with null weather columns. -/
def update_regional_data (ts : ℕ) (fuels : List ℚ) : List CsvRow → List CsvRow
  | [] => [⟨ts, fuels, fuels.sum, none, none, none⟩]
  | r :: rest =>
    if r.timestamp == ts then
      { r with fuels := fuels, totalGeneration := fuels.sum } :: rest
    else r :: update_regional_data ts fuels rest

/-! ## Theorems -/

/-- The closed form of `stepsUpTo` satisfies the loop equation of
`while current_time <= end_time`. -/
theorem stepsUpTo_eq (t e : ℕ) :
    stepsUpTo t e = if t ≤ e then t :: stepsUpTo (t + 10) e else [] := by
  unfold stepsUpTo
  by_cases h : t ≤ e
  · simp only [h, if_true]
    by_cases h10 : t + 10 ≤ e
    · simp only [h10, if_true]
      have hc : (e - t) / 10 + 1 = ((e - (t + 10)) / 10 + 1) + 1 := by omega
      rw [hc, List.range_succ_eq_map, List.map_cons, List.map_map]
      have hf : ((fun k => t + 10 * k) ∘ Nat.succ) = fun k => t + 10 + 10 * k := by
        funext k
        simp only [Function.comp_apply]
        omega
      rw [hf]
      simp
    · simp only [h10, if_false]
      have hc : (e - t) / 10 + 1 = 1 := by omega
      rw [hc]
      simp [List.range_succ]
  · simp [h]

/-- Multiplying a clamp at zero by a nonnegative factor commutes with the
clamp. -/
theorem max_zero_mul_of_nonneg (x c : ℚ) (hc : 0 ≤ c) :
    max 0 (x * c) = max 0 x * c := by
  rcases le_total x 0 with h | h
  · have h1 : x * c ≤ 0 := by nlinarith
    rw [max_eq_left h1, max_eq_left h, zero_mul]
  · have h1 : 0 ≤ x * c := mul_nonneg h hc
    rw [max_eq_right h1, max_eq_right h]

/-- C1: for every appliance-usage event with nonnegative power draw and
duration, the computed savings equals `max(0, worst - actual) * power *
duration` in both the scheduler and the template calculator, hence is
nonnegative for every event including those with `actual > worst`; for
worst 500, actual 300, 2.0 kW and 1 hour the savings is exactly 400. -/
theorem c1_savings_clamped (worst actual powerKw durationHours : ℚ)
    (hp : 0 ≤ powerKw) (hd : 0 ≤ durationHours) :
    choreSavedScheduler worst actual powerKw durationHours
        = max 0 (worst - actual) * powerKw * durationHours
    ∧ choreSavedTemplate worst actual powerKw durationHours
        = max 0 (worst - actual) * powerKw * durationHours
    ∧ 0 ≤ choreSavedScheduler worst actual powerKw durationHours
    ∧ 0 ≤ choreSavedTemplate worst actual powerKw durationHours
    ∧ choreSavedScheduler 500 300 2 1 = 400 := by
  have hpd : 0 ≤ powerKw * durationHours := mul_nonneg hp hd
  have e1 : (worst - actual) * powerKw * durationHours
      = (worst - actual) * (powerKw * durationHours) := by ring
  have e2 : durationHours * worst * powerKw - durationHours * actual * powerKw
      = (worst - actual) * (powerKw * durationHours) := by ring
  refine ⟨?_, ?_, le_max_left 0 _, le_max_left 0 _, ?_⟩
  · unfold choreSavedScheduler
    rw [e1, max_zero_mul_of_nonneg _ _ hpd]
    ring
  · unfold choreSavedTemplate
    rw [e2, max_zero_mul_of_nonneg _ _ hpd]
    ring
  · unfold choreSavedScheduler
    norm_num

/-- Witness for C1 at concrete inputs, including an event whose actual
intensity exceeds the worst-case one. -/
theorem c1_savings_clamped_witness :
    choreSavedScheduler 300 500 2 1 = max 0 ((300 : ℚ) - 500) * 2 * 1
    ∧ 0 ≤ choreSavedScheduler 300 500 2 1
    ∧ choreSavedScheduler 500 300 2 1 = 400 :=
  ⟨(c1_savings_clamped 300 500 2 1 (by norm_num) (by norm_num)).1,
   (c1_savings_clamped 300 500 2 1 (by norm_num) (by norm_num)).2.2.1,
   (c1_savings_clamped 500 300 2 1 (by norm_num) (by norm_num)).2.2.2.2⟩

/-- C8 counterexample: in the monthly template calculator an appliance type
absent from the table gets power draw 0 kW, so its savings are 0, not the
200 that a known 1.0 kW appliance earns on the same interval. -/
theorem c8_counterexample :
    appliancePowerTemplate [] "dishwasher" = 0
    ∧ choreSavedTemplate 500 300 (appliancePowerTemplate [] "dishwasher") 1 = 0
    ∧ choreSavedTemplate 500 300 1 1 = 200
    ∧ (0 : ℚ) ≠ 200 := by
  refine ⟨rfl, ?_, ?_, by norm_num⟩
  · unfold choreSavedTemplate appliancePowerTemplate
    norm_num
  · unfold choreSavedTemplate
    norm_num

/-- C8 amended: the scheduler (and the debug script) default an unknown
appliance type to 1.0 kW, so its savings equal those of a known 1.0 kW
appliance with the same intensities and duration; the monthly template
calculator instead defaults to 0 kW, so there an unknown appliance always
yields zero savings. -/
theorem c8_unknown_appliance_defaults (table : List (String × ℚ))
    (appliance : String) (h : table.lookup appliance = none)
    (worst actual durationHours : ℚ) :
    appliancePowerScheduler table appliance = 1
    ∧ choreSavedScheduler worst actual (appliancePowerScheduler table appliance)
        durationHours = choreSavedScheduler worst actual 1 durationHours
    ∧ appliancePowerTemplate table appliance = 0
    ∧ choreSavedTemplate worst actual (appliancePowerTemplate table appliance)
        durationHours = 0 := by
  have h1 : appliancePowerScheduler table appliance = 1 := by
    unfold appliancePowerScheduler
    rw [h]
    rfl
  have h0 : appliancePowerTemplate table appliance = 0 := by
    unfold appliancePowerTemplate
    rw [h]
    rfl
  refine ⟨h1, by rw [h1], h0, ?_⟩
  rw [h0]
  unfold choreSavedTemplate
  norm_num

/-- Witness for C8 amended: a one-entry table missing the queried appliance. -/
theorem c8_unknown_appliance_defaults_witness :
    ([("washing_machine", (2 : ℚ))].lookup "unknown_gadget" = none)
    ∧ appliancePowerScheduler [("washing_machine", 2)] "unknown_gadget" = 1
    ∧ choreSavedTemplate 500 300
        (appliancePowerTemplate [("washing_machine", 2)] "unknown_gadget") 1 = 0 :=
  ⟨by rfl,
   (c8_unknown_appliance_defaults [("washing_machine", 2)] "unknown_gadget"
      (by rfl) 500 300 1).1,
   (c8_unknown_appliance_defaults [("washing_machine", 2)] "unknown_gadget"
      (by rfl) 500 300 1).2.2.2⟩

/-- C2: evaluation of the cumulative repair pass at a user whose two entries
lie in March of different years.  The script compares only the month number,
so the 2025-03-10 entry, the first entry of its month, ends with cumulative
50 instead of the 40 required by the month-reset invariant (and by the
script's own stated purpose of accumulating within each month). -/
theorem c2_fix_cumulative_month_number_bug :
    fix_cumulative_totals
        [⟨⟨2024, 3, 15⟩, 10, 10⟩, ⟨⟨2025, 3, 10⟩, 40, 40⟩]
      = [⟨⟨2024, 3, 15⟩, 10, 10⟩, ⟨⟨2025, 3, 10⟩, 40, 50⟩]
    ∧ (50 : ℚ) ≠ 40 := by
  refine ⟨?_, by norm_num⟩
  norm_num [fix_cumulative_totals, fixCumulativePass]

/-- C7 counterexample: the daily-carbon endpoint answers a date with no
computed row with `carbon_saved = 0.0`, byte-for-byte the same response as a
day whose computed savings are zero — there is no distinct "not yet
calculated" indication. -/
theorem c7_counterexample :
    get_daily_carbon [] 1 ⟨2025, 1, 1⟩ = (0, 0)
    ∧ get_daily_carbon [⟨1, ⟨2025, 1, 1⟩, 0, 0⟩] 1 ⟨2025, 1, 1⟩ = (0, 0) := by
  refine ⟨by decide, by decide⟩

/-- C7 amended: for every user and date without a `DailyCarbonProgress` row
the endpoint reports the value 0 (not a distinct indication), and the batch
intensity calculator substitutes the fallback constant 0.500 for a period
with no resolvable data instead of propagating a typed error. -/
theorem c7_missing_data_reported_as_zero (rows : List ProgressRow) (uid : ℕ)
    (d : CalDate)
    (h : rows.find? (fun r => r.userId == uid && r.date == d) = none) :
    get_daily_carbon rows uid d = (0, 0)
    ∧ calculate_period_carbon_intensity [(1000, 7/10)] 0 10 = some (1/2) := by
  constructor
  · unfold get_daily_carbon
    rw [h]
  · have hsteps : stepsUpTo (roundDown10 0) 10 = [0, 10] := by decide
    unfold calculate_period_carbon_intensity
    rw [hsteps]
    have hcol : collectIntensities [(1000, (7 : ℚ)/10)] [0, 10] = some [] := by
      decide
    rw [hcol]
    simp

/-- Witness for C7 amended: a nonempty table that has no row for the queried
user and date. -/
theorem c7_missing_data_reported_as_zero_witness :
    ([(⟨2, ⟨2025, 1, 1⟩, 5, 5⟩ : ProgressRow)].find?
        (fun r => r.userId == 1 && r.date == (⟨2025, 1, 2⟩ : CalDate)) = none)
    ∧ get_daily_carbon [⟨2, ⟨2025, 1, 1⟩, 5, 5⟩] 1 ⟨2025, 1, 2⟩ = (0, 0) :=
  ⟨by decide,
   (c7_missing_data_reported_as_zero [⟨2, ⟨2025, 1, 1⟩, 5, 5⟩] 1 ⟨2025, 1, 2⟩
      (by decide)).1⟩

/-- C9: ingesting two raw samples with the same timestamp into a regional
file that does not yet carry that timestamp leaves exactly one row at that
timestamp, holding the later-ingested fuel values; the earlier record is
dropped regardless of the two values. -/
theorem c9_dedup_keeps_later (file : List CsvRow) (ts : ℕ) (v1 v2 : List ℚ)
    (h : ∀ r ∈ file, r.timestamp ≠ ts) :
    (update_regional_data ts v2 (update_regional_data ts v1 file)).filter
        (fun r => r.timestamp == ts)
      = [⟨ts, v2, v2.sum, none, none, none⟩] := by
  induction file with
  | nil =>
    simp [update_regional_data, List.filter]
  | cons r rest ih =>
    have hr : r.timestamp ≠ ts := h r (List.mem_cons_self r rest)
    have hrest : ∀ x ∈ rest, x.timestamp ≠ ts := fun x hx => h x (List.mem_cons_of_mem r hx)
    have hbeq : (r.timestamp == ts) = false := by
      simp [hr]
    rw [update_regional_data, if_neg (by simp [hr]), update_regional_data,
      if_neg (by simp [hr])]
    rw [List.filter_cons_of_neg (by simp [hr])]
    exact ih hrest

/-- Witness for C9: a file holding one other timestamp, then two ingestions
for timestamp 10 with different fuel vectors. -/
theorem c9_dedup_keeps_later_witness :
    (∀ r ∈ [(⟨0, [5], 5, some 20, none, none⟩ : CsvRow)], r.timestamp ≠ 10)
    ∧ (update_regional_data 10 [2, 3]
        (update_regional_data 10 [1, 1] [⟨0, [5], 5, some 20, none, none⟩])).filter
          (fun r => r.timestamp == 10)
        = [⟨10, [2, 3], [2, 3].sum, none, none, none⟩] :=
  ⟨by decide,
   c9_dedup_keeps_later [⟨0, [5], 5, some 20, none, none⟩] 10 [1, 1] [2, 3]
     (by decide)⟩

/-- C10: writing generation data for a timestamp already present overwrites
only the fuel columns and `Total_Generation` of the first row carrying that
timestamp; that row's weather columns, and every other row of the file, are
unchanged. -/
theorem c10_update_preserves_weather (before after : List CsvRow) (old : CsvRow)
    (ts : ℕ) (v : List ℚ)
    (h1 : ∀ r ∈ before, r.timestamp ≠ ts) (h2 : old.timestamp = ts) :
    update_regional_data ts v (before ++ old :: after)
        = before ++ { old with fuels := v, totalGeneration := v.sum } :: after
    ∧ ({ old with fuels := v, totalGeneration := v.sum } : CsvRow).timestamp
        = old.timestamp
    ∧ ({ old with fuels := v, totalGeneration := v.sum } : CsvRow).airTemperature
        = old.airTemperature
    ∧ ({ old with fuels := v, totalGeneration := v.sum } : CsvRow).windSpeed
        = old.windSpeed
    ∧ ({ old with fuels := v, totalGeneration := v.sum } : CsvRow).sunshineDuration
        = old.sunshineDuration := by
  refine ⟨?_, rfl, rfl, rfl, rfl⟩
  induction before with
  | nil =>
    simp only [List.nil_append]
    rw [update_regional_data, if_pos (by simp [h2])]
  | cons r rest ih =>
    have hr : r.timestamp ≠ ts := h1 r (List.mem_cons_self r rest)
    have hrest : ∀ x ∈ rest, x.timestamp ≠ ts := fun x hx => h1 x (List.mem_cons_of_mem r hx)
    simp only [List.cons_append]
    rw [update_regional_data, if_neg (by simp [hr])]
    rw [ih hrest]

/-- Witness for C10: a two-row file whose second row carries the rewritten
timestamp and recorded weather data. -/
theorem c10_update_preserves_weather_witness :
    (∀ r ∈ [(⟨0, [5], 5, none, none, none⟩ : CsvRow)], r.timestamp ≠ 10)
    ∧ update_regional_data 10 [2, 3]
        ([⟨0, [5], 5, none, none, none⟩] ++ ⟨10, [1, 1], 2, some 21, some 3, some 1⟩ :: [])
      = [⟨0, [5], 5, none, none, none⟩]
          ++ ⟨10, [2, 3], [2, 3].sum, some 21, some 3, some 1⟩ :: [] :=
  ⟨by decide,
   (c10_update_preserves_weather [⟨0, [5], 5, none, none, none⟩] []
     ⟨10, [1, 1], 2, some 21, some 3, some 1⟩ 10 [2, 3] (by decide) rfl).1⟩

/-- On a nonempty series the estimator loop collects exactly the values the
per-step resolution resolves. -/
theorem collectIntensities_eq_filterMap (data : List (ℕ × ℚ)) (h : data ≠ [])
    (steps : List ℕ) :
    collectIntensities data steps = some (steps.filterMap (resolveSample data)) := by
  induction steps with
  | nil => rfl
  | cons t ts ih =>
    cases hl : data.lookup t with
    | some v =>
      simp [collectIntensities, hl, resolveSample, ih, List.filterMap_cons]
    | none =>
      cases ha : data.argmin (fun p => Nat.dist p.1 t) with
      | none =>
        exact absurd (List.argmin_eq_none.mp ha) h
      | some c =>
        by_cases hd : Nat.dist c.1 t < 60
        · simp [collectIntensities, hl, ha, hd, resolveSample, ih, List.filterMap_cons]
        · simp [collectIntensities, hl, ha, hd, resolveSample, ih, List.filterMap_cons]

/-- C4 counterexample: on an empty intensity series with at least one stepped
timestamp the estimator raises (`min()` over an empty dict) instead of
returning the documented 0.500 fallback that the specification-side
definition produces. -/
theorem c4_counterexample :
    calculate_period_carbon_intensity [] 0 10 = none
    ∧ specIntervalEstimate [] 0 10 = 1/2
    ∧ (none : Option ℚ) ≠ some (1/2) := by
  have hsteps : stepsUpTo (roundDown10 0) 10 = [0, 10] := by decide
  refine ⟨?_, ?_, by simp⟩
  · unfold calculate_period_carbon_intensity
    rw [hsteps]
    have hcol : collectIntensities [] [0, 10] = none := by decide
    rw [hcol]
    rfl
  · unfold specIntervalEstimate
    rw [hsteps]
    have hres : ([0, 10].filterMap (resolveSample [])) = [] := by decide
    rw [hres]
    norm_num

/-- C4 amended: for every interval and every nonempty intensity series the
estimator returns exactly the specified value — mean of the per-step
resolutions (exact match, else nearest sample strictly within 60 minutes,
else missing) over the 10-minute steps from the rounded-down start — and
when zero values resolve that value is the fallback 0.500, never zero; on an
empty series the code instead raises. -/
theorem c4_estimator_follows_spec (data : List (ℕ × ℚ)) (startT endT : ℕ)
    (h : data ≠ []) :
    calculate_period_carbon_intensity data startT endT
        = some (specIntervalEstimate data startT endT)
    ∧ (((stepsUpTo (roundDown10 startT) endT).filterMap (resolveSample data)) = []
        → specIntervalEstimate data startT endT = 1/2
          ∧ specIntervalEstimate data startT endT ≠ 0) := by
  constructor
  · unfold calculate_period_carbon_intensity specIntervalEstimate
    rw [collectIntensities_eq_filterMap data h]
    rfl
  · intro hres
    unfold specIntervalEstimate
    rw [hres]
    norm_num

/-- Witness for C4 amended: a series resolving exactly at the single step,
and a series too far from every step (zero values resolve, fallback 0.500). -/
theorem c4_estimator_follows_spec_witness :
    (([(0, (2 : ℚ)/5)] : List (ℕ × ℚ)) ≠ [])
    ∧ calculate_period_carbon_intensity [(0, (2 : ℚ)/5)] 0 0
        = some (specIntervalEstimate [(0, (2 : ℚ)/5)] 0 0)
    ∧ (([(1000, (1 : ℚ))] : List (ℕ × ℚ)) ≠ [])
    ∧ specIntervalEstimate [(1000, (1 : ℚ))] 0 10 = 1/2 :=
  ⟨by decide,
   (c4_estimator_follows_spec [(0, (2 : ℚ)/5)] 0 0 (by decide)).1,
   by decide,
   ((c4_estimator_follows_spec [(1000, (1 : ℚ))] 0 10 (by decide)).2 (by decide)).1⟩

/-- Collecting the optional elements at positions `i, i+1, ...` of a list
yields the slice of length `n` starting at `i`. -/
theorem range_filterMap_getElem {α : Type} (l : List α) (i : ℕ) :
    ∀ n, (List.range n).filterMap (fun j => l[i + j]?) = (l.drop i).take n := by
  intro n
  induction n with
  | zero => simp
  | succ n ih =>
    rw [List.range_succ, List.filterMap_append, ih, List.take_succ]
    congr 1
    rw [List.getElem?_drop]
    cases h : l[i + n]? <;> simp [h, List.filterMap]

/-- Facts about a fold that accumulates a running maximum: the result
dominates the seed and every candidate, and is attained by the seed or by
some candidate. -/
theorem foldl_max_facts (f : ℕ → ℚ) :
    ∀ (l : List ℕ) (a : ℚ),
      (a ≤ l.foldl (fun w i => max w (f i)) a)
      ∧ (∀ i ∈ l, f i ≤ l.foldl (fun w i => max w (f i)) a)
      ∧ (l.foldl (fun w i => max w (f i)) a = a
          ∨ ∃ i ∈ l, l.foldl (fun w i => max w (f i)) a = f i) := by
  intro l
  induction l with
  | nil =>
    intro a
    simp
  | cons x xs ih =>
    intro a
    obtain ⟨h1, h2, h3⟩ := ih (max a (f x))
    rw [List.foldl_cons]
    refine ⟨le_trans (le_max_left a (f x)) h1, ?_, ?_⟩
    · intro i hi
      rcases List.mem_cons.mp hi with rfl | hmem
      · exact le_trans (le_max_right a (f i)) h1
      · exact h2 i hmem
    · rcases h3 with h | ⟨i, hi, he⟩
      · rcases max_choice a (f x) with hm | hm
        · exact Or.inl (h.trans hm)
        · exact Or.inr ⟨x, List.mem_cons_self x xs, h.trans hm⟩
      · exact Or.inr ⟨i, List.mem_cons_of_mem x hi, he⟩

/-- A window of positive samples has positive mean. -/
theorem windowMean_pos (samples : List ℚ) (i k : ℕ)
    (hpos : ∀ v ∈ samples, 0 < v) (hne : (samples.drop i).take k ≠ []) :
    0 < windowMean samples i k := by
  unfold windowMean
  have hsub : ∀ v ∈ (samples.drop i).take k, 0 < v := fun v hv =>
    hpos v (List.drop_subset i samples (List.take_subset k _ hv))
  have hsum : 0 < ((samples.drop i).take k).sum := List.sum_pos _ hsub hne
  have hlen : 0 < ((((samples.drop i).take k).length : ℕ) : ℚ) := by
    exact_mod_cast List.length_pos.mpr hne
  exact div_pos hsum hlen

/-- The window gathered at position `i` by the scheduler equals the length-`k`
slice of the day's sample values starting at `i`. -/
theorem sched_window_eq_slice (dayData : List (ℕ × ℚ)) (timestamps : List ℕ)
    (i k : ℕ) :
    (List.range k).filterMap (fun j => (timestamps[i + j]?).map (lookupIntensity dayData))
      = ((timestamps.map (lookupIntensity dayData)).drop i).take k := by
  have h : ∀ j : ℕ, (timestamps[i + j]?).map (lookupIntensity dayData)
      = (timestamps.map (lookupIntensity dayData))[i + j]? := by
    intro j
    rw [List.getElem?_map]
  simp only [h]
  exact range_filterMap_getElem _ i k

/-- C3 amended: the scheduler's worst-window search uses a window of
`(duration + 9) / 10` samples — the ceiling of `duration / 10`, as the two
bound conjuncts state — and, whenever the day has at least one full window
and its samples are positive, returns the maximum over all window positions
of the window mean.  (The template's `find_worst_period` instead uses a floor
window, see the counterexample.) -/
theorem c3_scheduler_worst_window (data : List (ℕ × ℚ)) (day durationMinutes : ℕ)
    (h1 : 0 < (durationMinutes + 9) / 10)
    (h2 : (durationMinutes + 9) / 10 ≤ (daySamples data day).length)
    (h3 : ∀ v ∈ daySamples data day, 0 < v) :
    (durationMinutes ≤ 10 * ((durationMinutes + 9) / 10)
      ∧ 10 * ((durationMinutes + 9) / 10) < durationMinutes + 10)
    ∧ (∃ i < (daySamples data day).length + 1 - (durationMinutes + 9) / 10,
        find_worst_continuous_period data day durationMinutes
          = windowMean (daySamples data day) i ((durationMinutes + 9) / 10))
    ∧ (∀ i < (daySamples data day).length + 1 - (durationMinutes + 9) / 10,
        windowMean (daySamples data day) i ((durationMinutes + 9) / 10)
          ≤ find_worst_continuous_period data day durationMinutes)
    ∧ find_worst_continuous_period
        [(0, 100), (10, 100), (20, 100), (30, 500), (40, 500), (50, 100)] 0 20 = 500
    ∧ find_worst_period [100, 100, 100, 500, 500, 100] 20 = 500 := by
  have hconc1 : find_worst_continuous_period
      [(0, 100), (10, 100), (20, 100), (30, 500), (40, 500), (50, 100)] 0 20 = 500 := by
    simp [find_worst_continuous_period, List.insertionSort, List.orderedInsert,
      lookupIntensity, List.lookup_cons, List.range_succ, List.filterMap_cons]
    norm_num [max_def]
  have hconc2 : find_worst_period [100, 100, 100, 500, 500, 100] 20 = 500 := by
    simp [find_worst_period, List.range_succ]
    norm_num [max_def]
  set k := (durationMinutes + 9) / 10 with hk
  set dayData := data.filter (fun p => p.1 / 1440 == day) with hDD
  set timestamps := (dayData.map (fun p => p.1)).insertionSort (· ≤ ·) with hTS
  have hsamples : daySamples data day = timestamps.map (lookupIntensity dayData) := by
    simp only [daySamples]
  set samples := daySamples data day with hS
  have hlen : samples.length = timestamps.length := by
    rw [hsamples, List.length_map]
  have hddne : ¬ dayData = [] := by
    intro hnil
    have hts : timestamps = [] := by
      rw [hTS, hnil]
      rfl
    rw [hlen, hts] at h2
    simp at h2
    omega
  set n := samples.length + 1 - k with hn
  have hwne : ∀ i < n, (samples.drop i).take k ≠ [] := by
    intro i hi hns
    have hl : ((samples.drop i).take k).length = min k (samples.length - i) := by
      rw [List.length_take, List.length_drop]
    rw [hns] at hl
    simp only [List.length_nil] at hl
    rcases Nat.min_eq_zero_iff.mp hl.symm with h0 | h0 <;> omega
  have key : find_worst_continuous_period data day durationMinutes
      = (List.range n).foldl (fun w i => max w (windowMean samples i k)) 0 := by
    unfold find_worst_continuous_period
    rw [← hDD, if_neg hddne, ← hTS, ← hk]
    simp only []
    rw [← hlen, ← hn]
    have hfold : (List.range n).foldl
        (fun w i =>
          let window := (List.range k).filterMap
            (fun j => (timestamps[i + j]?).map (lookupIntensity dayData))
          if window = [] then w else max w (window.sum / window.length)) 0
        = (List.range n).foldl (fun w i => max w (windowMean samples i k)) 0 := by
      apply List.foldl_ext
      intro a i hi
      have hiw : (List.range k).filterMap
          (fun j => (timestamps[i + j]?).map (lookupIntensity dayData))
          = (samples.drop i).take k := by
        rw [sched_window_eq_slice, ← hsamples]
      simp only [hiw]
      rw [if_neg (hwne i (List.mem_range.mp hi))]
      rfl
    rw [hfold]
    have hpos : 0 < (List.range n).foldl (fun w i => max w (windowMean samples i k)) 0 := by
      obtain ⟨-, hdom, -⟩ := foldl_max_facts (fun i => windowMean samples i k) (List.range n) 0
      have hn0 : 0 < n := by omega
      have h0 : 0 < windowMean samples 0 k :=
        windowMean_pos samples 0 k h3 (hwne 0 hn0)
      exact lt_of_lt_of_le h0 (hdom 0 (List.mem_range.mpr hn0))
    rw [if_pos hpos]
  obtain ⟨-, hdom, hat⟩ := foldl_max_facts (fun i => windowMean samples i k) (List.range n) 0
  have hpos : 0 < find_worst_continuous_period data day durationMinutes := by
    rw [key]
    have hn0 : 0 < n := by omega
    exact lt_of_lt_of_le (windowMean_pos samples 0 k h3 (hwne 0 hn0))
      (hdom 0 (List.mem_range.mpr hn0))
  refine ⟨⟨by omega, by omega⟩, ?_, ?_, hconc1, hconc2⟩
  · rcases hat with h0 | ⟨i, hi, he⟩
    · rw [key, h0] at hpos
      exact absurd hpos (lt_irrefl 0)
    · exact ⟨i, List.mem_range.mp hi, by rw [key, he]⟩
  · intro i hi
    rw [key]
    exact hdom i (List.mem_range.mpr hi)

/-- Witness for C3 amended: the spec's concrete day
`[100,100,100,500,500,100]` with a 20-minute duration, plus the general
conclusions instantiated on it. -/
theorem c3_scheduler_worst_window_witness :
    (0 < (20 + 9) / 10)
    ∧ ((20 + 9) / 10
        ≤ (daySamples [(0, 100), (10, 100), (20, 100), (30, 500), (40, 500), (50, 100)] 0).length)
    ∧ (∀ v ∈ daySamples [(0, 100), (10, 100), (20, 100), (30, 500), (40, 500), (50, 100)] 0,
        (0 : ℚ) < v)
    ∧ find_worst_continuous_period
        [(0, 100), (10, 100), (20, 100), (30, 500), (40, 500), (50, 100)] 0 20 = 500 :=
  ⟨by decide, by decide, by decide,
   (c3_scheduler_worst_window
      [(0, 100), (10, 100), (20, 100), (30, 500), (40, 500), (50, 100)] 0 20
      (by decide) (by decide) (by decide)).2.2.2.1⟩

/-- C3 counterexample: the template's `find_worst_period` sizes its window
with floor division `duration // 10`, not the ceiling the claim states: for
the day `[100, 500, 100]` and a 15-minute duration it scans 1-sample windows
and returns 500, while the claimed ceiling algorithm scans 2-sample windows
and returns 300. -/
theorem c3_counterexample :
    find_worst_period [100, 500, 100] 15 = 500
    ∧ specWorstWindow [100, 500, 100] 15 = 300
    ∧ (500 : ℚ) ≠ 300 := by
  refine ⟨?_, ?_, by norm_num⟩
  · simp [find_worst_period, List.range_succ]
    norm_num [max_def]
  · simp [specWorstWindow, List.range_succ]
    norm_num [max_def]

/-- Structural characterization of date equality. -/
theorem calDate_eq_iff (a b : CalDate) :
    a = b ↔ (a.y = b.y ∧ a.m = b.m ∧ a.d = b.d) := by
  cases a
  cases b
  simp

/-- The last day of the month before `today` is the length of its month. -/
theorem prevMonthEnd_day (today : CalDate) :
    (prevMonthEnd today).d = daysInMonth (prevMonthEnd today).y (prevMonthEnd today).m := by
  unfold prevMonthEnd
  by_cases h : today.m = 1
  · simp [h, daysInMonth]
  · simp [h]

/-- A date with a valid day number lies between the first and last day of a
month `lmE` exactly when it lies in that calendar month. -/
theorem between_month_iff (x lmE : CalDate)
    (hd : lmE.d = daysInMonth lmE.y lmE.m)
    (h1 : 1 ≤ x.d) (h2 : x.d ≤ daysInMonth x.y x.m) :
    ((!(dateLtB x ⟨lmE.y, lmE.m, 1⟩)) && dateLeB x lmE)
      = (x.y == lmE.y && x.m == lmE.m) := by
  rw [Bool.eq_iff_iff]
  simp only [Bool.and_eq_true, Bool.not_eq_true', dateLtB, dateLeB, Bool.or_eq_true,
    Bool.or_eq_false_iff, Bool.and_eq_false_iff, decide_eq_true_eq, decide_eq_false_iff_not,
    calDate_eq_iff, beq_iff_eq]
  constructor
  · intro hcond
    constructor <;> omega
  · intro hcond
    obtain ⟨hy, hm⟩ := hcond
    have hdd : x.d ≤ lmE.d := by
      rw [hd, ← hy, ← hm]
      exact h2
    constructor <;> omega

/-- The sum the promotion script computes over the previous month's date range
equals the sum over rows of that calendar month, for valid row dates. -/
theorem lastMonthCarbon_eq_monthDailySum (rows : List ProgressRow) (uid : ℕ)
    (today : CalDate)
    (hdates : ∀ r ∈ rows, 1 ≤ r.date.d ∧ r.date.d ≤ daysInMonth r.date.y r.date.m) :
    ((rows.filter (fun r => r.userId == uid
        && !(dateLtB r.date ⟨(prevMonthEnd today).y, (prevMonthEnd today).m, 1⟩)
        && dateLeB r.date (prevMonthEnd today))).map (fun r => r.daily)).sum
      = monthDailySum rows uid (prevMonthEnd today).y (prevMonthEnd today).m := by
  unfold monthDailySum
  congr 2
  apply List.filter_congr
  intro r hr
  obtain ⟨h1, h2⟩ := hdates r hr
  cases hu : (r.userId == uid) with
  | false => simp [hu]
  | true =>
    simp only [hu, Bool.true_and, Bool.and_assoc]
    exact between_month_iff r.date (prevMonthEnd today) (prevMonthEnd_day today) h1 h2

/-- Finding by the upsert key after an upsert yields the updated first match,
or the freshly created row. -/
theorem upsertSummary_find (p : SummaryRow → Bool) (f : SummaryRow → SummaryRow)
    (mk : SummaryRow) (l : List SummaryRow)
    (hf : ∀ s, p s = true → p (f s) = true) (hmk : p mk = true) :
    (upsertSummary p f mk l).find? p
      = some (match l.find? p with
              | some s => f s
              | none => mk) := by
  induction l with
  | nil =>
    simp [upsertSummary, List.find?_cons_of_pos, hmk]
  | cons s rest ih =>
    by_cases hs : p s = true
    · rw [upsertSummary, if_pos hs, List.find?_cons_of_pos _ (hf s hs),
        List.find?_cons_of_pos _ hs]
    · rw [upsertSummary, if_neg hs, List.find?_cons_of_neg _ (by simp [hs]),
        List.find?_cons_of_neg _ (by simp [hs]), ih]

/-- C6 amended: for every user found in the state and every row table with
valid dates, the monthly summary written by the carbon-based promotion script
for the just-ended month carries exactly the sum of that user's
`DailyCarbonProgress.daily_carbon_saved` rows of that month, whether the
summary is created or updated.  (The task-based league scheduler instead
writes a chore-derived total; see the counterexample.) -/
theorem c6_summary_total_matches_daily_rows (today : CalDate) (uid : ℕ)
    (st : PromoState) (user : PromoUser)
    (huser : st.users.find? (fun u => u.id == uid) = some user)
    (hdates : ∀ r ∈ st.rows, 1 ≤ r.date.d ∧ r.date.d ≤ daysInMonth r.date.y r.date.m) :
    ∃ s, ((check_and_promote_user today uid st).summaries.find?
        (fun s => s.userId == uid && s.month == (prevMonthEnd today).m
          && s.year == (prevMonthEnd today).y)) = some s
      ∧ s.total = monthDailySum st.rows uid (prevMonthEnd today).y (prevMonthEnd today).m := by
  unfold check_and_promote_user
  rw [huser]
  simp only []
  rw [upsertSummary_find]
  · refine ⟨_, rfl, ?_⟩
    cases st.summaries.find? (fun s => s.userId == uid && s.month == (prevMonthEnd today).m
        && s.year == (prevMonthEnd today).y) with
    | none =>
      exact lastMonthCarbon_eq_monthDailySum st.rows uid today hdates
    | some s =>
      exact lastMonthCarbon_eq_monthDailySum st.rows uid today hdates
  · intro s hs
    exact hs
  · simp

/-- Witness for C6 amended: a one-user state with one daily row of 400 g in
August 2025, finalized on 15 September 2025. -/
theorem c6_summary_total_matches_daily_rows_witness :
    (([⟨1, "bronze", 123⟩] : List PromoUser).find? (fun u => u.id == 1)
        = some ⟨1, "bronze", 123⟩)
    ∧ (∀ r ∈ [(⟨1, ⟨2025, 8, 10⟩, 400, 400⟩ : ProgressRow)],
        1 ≤ r.date.d ∧ r.date.d ≤ daysInMonth r.date.y r.date.m)
    ∧ ∃ s, ((check_and_promote_user ⟨2025, 9, 15⟩ 1
        ⟨[⟨1, "bronze", 123⟩], [⟨1, ⟨2025, 8, 10⟩, 400, 400⟩], []⟩).summaries.find?
          (fun s => s.userId == 1 && s.month == (prevMonthEnd ⟨2025, 9, 15⟩).m
            && s.year == (prevMonthEnd ⟨2025, 9, 15⟩).y)) = some s
        ∧ s.total = monthDailySum [⟨1, ⟨2025, 8, 10⟩, 400, 400⟩] 1
            (prevMonthEnd ⟨2025, 9, 15⟩).y (prevMonthEnd ⟨2025, 9, 15⟩).m :=
  ⟨by decide, by decide,
   c6_summary_total_matches_daily_rows ⟨2025, 9, 15⟩ 1
     ⟨[⟨1, "bronze", 123⟩], [⟨1, ⟨2025, 8, 10⟩, 400, 400⟩], []⟩ ⟨1, "bronze", 123⟩
     (by decide) (by decide)⟩

/-- C6 counterexample: the task-based league scheduler writes into the
monthly summary the chore-derived total of `calculate_monthly_carbon_savings`
(line 248), not the daily-rows sum: for a user with no chores in the month
but a daily row of 400 g, the scheduler writes 0 while the daily rows sum to
400. -/
theorem c6_counterexample :
    calculate_monthly_carbon_savings [] [(0, 1/2)] [] 1 9 2025 = some 0
    ∧ monthDailySum [⟨1, ⟨2025, 9, 10⟩, 400, 400⟩] 1 2025 9 = 400
    ∧ some (0 : ℚ) ≠ some 400 := by
  refine ⟨rfl, ?_, by simp⟩
  norm_num [monthDailySum]

/-- Explicit form of `migrate_user_carbon` when the user has chores. -/
theorem migrate_spec (calcFn : Chore → ℚ) (today : CalDate) (uid : ℕ)
    (st : MigState) (h : ¬ st.chores.filter (fun c => c.userId == uid) = []) :
    migrate_user_carbon calcFn today uid st =
      { rows := st.rows.filter (fun r => !(r.userId == uid))
          ++ userRowsFromChores calcFn uid st.chores
        chores := st.chores
        users := st.users.map (fun u =>
          if u.id == uid then
            { u with
                total := ((migratedEntries calcFn
                    (st.chores.filter (fun c => c.userId == uid))).map
                  (fun e => e.daily)).sum
                currentMonth :=
                  match ((migratedEntries calcFn
                      (st.chores.filter (fun c => c.userId == uid))).filter
                    (fun e => e.date.y == today.y && e.date.m == today.m)).getLast? with
                  | some e => e.cum
                  | none => u.currentMonth }
          else u) } := by
  unfold migrate_user_carbon userRowsFromChores
  simp only []
  rw [if_neg h]

/-- The rows the migration writes all belong to the migrated user. -/
theorem userRowsFromChores_userId (calcFn : Chore → ℚ) (uid : ℕ)
    (chores : List Chore) :
    ∀ r ∈ userRowsFromChores calcFn uid chores, r.userId = uid := by
  intro r hr
  unfold userRowsFromChores at hr
  obtain ⟨e, -, rfl⟩ := List.mem_map.mp hr
  rfl

/-- Splitting any row table by user: the non-user filter drops all of the
migration's new rows and is idempotent on the preserved ones. -/
theorem migrate_rows_filters (calcFn : Chore → ℚ) (uid : ℕ) (chores : List Chore)
    (rows : List ProgressRow) :
    ((rows.filter (fun r => !(r.userId == uid))
        ++ userRowsFromChores calcFn uid chores).filter (fun r => !(r.userId == uid))
      = rows.filter (fun r => !(r.userId == uid)))
    ∧ ((rows.filter (fun r => !(r.userId == uid))
        ++ userRowsFromChores calcFn uid chores).filter (fun r => r.userId == uid)
      = userRowsFromChores calcFn uid chores) := by
  have hall := userRowsFromChores_userId calcFn uid chores
  constructor
  · rw [List.filter_append, List.filter_filter]
    have h1 : ∀ r : ProgressRow,
        ((!(r.userId == uid)) && (!(r.userId == uid))) = (!(r.userId == uid)) := by
      intro r
      exact Bool.and_self _
    rw [List.filter_congr (fun r _ => h1 r)]
    have h2 : (userRowsFromChores calcFn uid chores).filter
        (fun r => !(r.userId == uid)) = [] := by
      rw [List.filter_eq_nil_iff]
      intro r hr
      simp [hall r hr]
    rw [h2, List.append_nil]
  · rw [List.filter_append]
    have h1 : (rows.filter (fun r => !(r.userId == uid))).filter
        (fun r => r.userId == uid) = [] := by
      rw [List.filter_filter, List.filter_eq_nil_iff]
      intro r hr
      simp
    have h2 : (userRowsFromChores calcFn uid chores).filter
        (fun r => r.userId == uid) = userRowsFromChores calcFn uid chores := by
      rw [List.filter_eq_self]
      intro r hr
      simp [hall r hr]
    rw [h1, h2, List.nil_append]

/-- C5: daily aggregation is idempotent and replacing.  Running the migration
twice in a row changes nothing; after a run the user's rows are exactly a
function of the chore log (prior rows neither survive nor double-count) and
other users' rows are untouched; and the recalculation script refreshes the
denormalized current-month cache to the sum of the user's per-day rows of the
current month (for rows not dated past the current month). -/
theorem c5_aggregation_idempotent (calcFn : Chore → ℚ) (today now : CalDate)
    (uid : ℕ) (st : MigState)
    (hne : ¬ st.chores.filter (fun c => c.userId == uid) = [])
    (hbound : ∀ r ∈ st.rows, r.userId = uid →
      (r.date.y < now.y ∨ (r.date.y = now.y ∧ r.date.m ≤ now.m)) ∧ 1 ≤ r.date.d) :
    migrate_user_carbon calcFn today uid (migrate_user_carbon calcFn today uid st)
        = migrate_user_carbon calcFn today uid st
    ∧ (migrate_user_carbon calcFn today uid st).rows.filter
        (fun r => r.userId == uid) = userRowsFromChores calcFn uid st.chores
    ∧ (migrate_user_carbon calcFn today uid st).rows.filter
        (fun r => !(r.userId == uid)) = st.rows.filter (fun r => !(r.userId == uid))
    ∧ (∀ u ∈ (recalculate_current_month now uid st).users, u.id = uid →
        u.currentMonth = monthDailySum st.rows uid now.y now.m) := by
  have hms := migrate_spec calcFn today uid st hne
  refine ⟨?_, ?_, ?_, ?_⟩
  · have hG := migrate_spec calcFn today uid (migrate_user_carbon calcFn today uid st)
      (by rw [hms]; exact hne)
    rw [hG, hms]
    dsimp only
    simp only [MigState.mk.injEq]
    refine ⟨?_, trivial, ?_⟩
    · rw [(migrate_rows_filters calcFn uid st.chores st.rows).1]
    · rw [List.map_map]
      have hff : ∀ u : UserRec,
          ((fun u : UserRec =>
            if u.id == uid then
              { u with
                  total := ((migratedEntries calcFn
                      (st.chores.filter (fun c => c.userId == uid))).map
                    (fun e => e.daily)).sum
                  currentMonth :=
                    match ((migratedEntries calcFn
                        (st.chores.filter (fun c => c.userId == uid))).filter
                      (fun e => e.date.y == today.y && e.date.m == today.m)).getLast? with
                    | some e => e.cum
                    | none => u.currentMonth }
            else u) ∘
           (fun u : UserRec =>
            if u.id == uid then
              { u with
                  total := ((migratedEntries calcFn
                      (st.chores.filter (fun c => c.userId == uid))).map
                    (fun e => e.daily)).sum
                  currentMonth :=
                    match ((migratedEntries calcFn
                        (st.chores.filter (fun c => c.userId == uid))).filter
                      (fun e => e.date.y == today.y && e.date.m == today.m)).getLast? with
                    | some e => e.cum
                    | none => u.currentMonth }
            else u)) u
          = (fun u : UserRec =>
            if u.id == uid then
              { u with
                  total := ((migratedEntries calcFn
                      (st.chores.filter (fun c => c.userId == uid))).map
                    (fun e => e.daily)).sum
                  currentMonth :=
                    match ((migratedEntries calcFn
                        (st.chores.filter (fun c => c.userId == uid))).filter
                      (fun e => e.date.y == today.y && e.date.m == today.m)).getLast? with
                    | some e => e.cum
                    | none => u.currentMonth }
            else u) u := by
        intro u
        cases u with
        | mk id total currentMonth =>
          by_cases hu : id = uid
          · cases hM : ((migratedEntries calcFn
                (st.chores.filter (fun c => c.userId == uid))).filter
              (fun e => e.date.y == today.y && e.date.m == today.m)).getLast? with
            | none => simp [hu, hM]
            | some e => simp [hu, hM]
          · simp [hu]
      exact List.map_congr_left (fun u _ => hff u)
  · rw [hms]
    exact (migrate_rows_filters calcFn uid st.chores st.rows).2
  · rw [hms]
    exact (migrate_rows_filters calcFn uid st.chores st.rows).1
  · intro u hu huid
    unfold recalculate_current_month at hu
    simp only [] at hu
    obtain ⟨u0, hu0, rfl⟩ := List.mem_map.mp hu
    by_cases h0 : u0.id == uid
    · simp only [h0, if_true]
      unfold monthDailySum
      congr 2
      apply List.filter_congr
      intro r hr
      cases hru : (r.userId == uid) with
      | false => simp [hru]
      | true =>
        have hruid : r.userId = uid := by simpa using hru
        obtain ⟨hb, hd1⟩ := hbound r hr hruid
        simp only [hru, Bool.true_and]
        rw [Bool.eq_iff_iff]
        simp only [dateLtB, Bool.or_eq_true, Bool.and_eq_true, Bool.not_eq_true',
          Bool.or_eq_false_iff, Bool.and_eq_false_iff, decide_eq_true_eq,
          decide_eq_false_iff_not, beq_iff_eq]
        omega
    · rw [if_neg h0] at huid ⊢
      exact absurd (by simpa using huid) (by simpa using h0)

/-- Witness for C5: a one-user state with one chore, migrated and recalculated
on 15 September 2025. -/
theorem c5_aggregation_idempotent_witness :
    (¬ ((⟨[⟨1, ⟨2025, 9, 1⟩, 7, 7⟩], [⟨1, ⟨2025, 9, 1⟩, 40⟩], [⟨1, 0, 0⟩]⟩ :
        MigState).chores.filter (fun c => c.userId == 1) = []))
    ∧ migrate_user_carbon (fun c => c.data) ⟨2025, 9, 15⟩ 1
        (migrate_user_carbon (fun c => c.data) ⟨2025, 9, 15⟩ 1
          ⟨[⟨1, ⟨2025, 9, 1⟩, 7, 7⟩], [⟨1, ⟨2025, 9, 1⟩, 40⟩], [⟨1, 0, 0⟩]⟩)
      = migrate_user_carbon (fun c => c.data) ⟨2025, 9, 15⟩ 1
          ⟨[⟨1, ⟨2025, 9, 1⟩, 7, 7⟩], [⟨1, ⟨2025, 9, 1⟩, 40⟩], [⟨1, 0, 0⟩]⟩
    ∧ (∀ u ∈ (recalculate_current_month ⟨2025, 9, 15⟩ 1
        ⟨[⟨1, ⟨2025, 9, 1⟩, 7, 7⟩], [⟨1, ⟨2025, 9, 1⟩, 40⟩], [⟨1, 0, 0⟩]⟩).users,
        u.id = 1 → u.currentMonth
          = monthDailySum [⟨1, ⟨2025, 9, 1⟩, 7, 7⟩] 1 2025 9) :=
  ⟨by decide,
   (c5_aggregation_idempotent (fun c => c.data) ⟨2025, 9, 15⟩ ⟨2025, 9, 15⟩ 1
      ⟨[⟨1, ⟨2025, 9, 1⟩, 7, 7⟩], [⟨1, ⟨2025, 9, 1⟩, 40⟩], [⟨1, 0, 0⟩]⟩
      (by decide) (by decide)).1,
   (c5_aggregation_idempotent (fun c => c.data) ⟨2025, 9, 15⟩ ⟨2025, 9, 15⟩ 1
      ⟨[⟨1, ⟨2025, 9, 1⟩, 7, 7⟩], [⟨1, ⟨2025, 9, 1⟩, 40⟩], [⟨1, 0, 0⟩]⟩
      (by decide) (by decide)).2.2.2⟩

end GreenApp
